import Mathlib

/-!
Verification of the sw5e advancement engine against its specification.

The JavaScript sources are shallowly embedded: JS numbers that the code uses
as integers (class levels, power levels, bonuses) become Int or Nat, JS
strings become String, fallible code returns Except, objects become
structures, and host-provided collaborators (dice rolls, the confirmation
dialog, localization tables) become explicit parameters or small inductive
outcome types.
-/

/- ----------------------------------------------------------------- -/
/- JavaScript-level helpers                                          -/
/- ----------------------------------------------------------------- -/

/-- Truthiness of an optional string, as JS sees `undefined` and `""`. -/
def jsTruthyStr : Option String → Bool
  | none => false
  | some s => s ≠ ""

/-- Longest leading run of decimal digits of a character list. -/
def leadDigits : List Char → List Char
  | [] => []
  | c :: cs => if c.isDigit then c :: leadDigits cs else []

/-- Value of a list of decimal digit characters. -/
def digitListVal (l : List Char) : Nat :=
  l.foldl (fun acc c => acc * 10 + (c.toNat - 48)) 0

/-- Whitespace stripped from both ends of a character list. -/
def trimChars (l : List Char) : List Char :=
  ((l.dropWhile Char.isWhitespace).reverse.dropWhile Char.isWhitespace).reverse

/-- JS `parseInt`: skip leading whitespace, optional sign, then the longest
digit prefix; `none` models `NaN` (no digit found). Hexadecimal prefixes are
not modelled; the code under verification parses configured power levels. -/
def parseIntJS (s : String) : Option Int :=
  match trimChars s.toList with
  | '-' :: rest =>
    if leadDigits rest = [] then none else some (-(digitListVal (leadDigits rest) : Int))
  | '+' :: rest =>
    if leadDigits rest = [] then none else some ((digitListVal (leadDigits rest) : Int))
  | l =>
    if leadDigits l = [] then none else some ((digitListVal (leadDigits l) : Int))

/-- All characters are decimal digits. -/
def allDigits (l : List Char) : Bool := l.all Char.isDigit

/-- JS `Number(string)` restricted to integer literals: the whole trimmed
string must be an optionally signed digit run; `none` models `NaN`. -/
def strNumber? (s : String) : Option Int :=
  match trimChars s.toList with
  | [] => none
  | '-' :: rest =>
    if rest ≠ [] ∧ allDigits rest then some (-(digitListVal rest : Int)) else none
  | '+' :: rest =>
    if rest ≠ [] ∧ allDigits rest then some ((digitListVal rest : Int)) else none
  | l => if allDigits l then some ((digitListVal l : Int)) else none

/-- JS `String#capitalize` as Foundry defines it: upper-case the first char. -/
def jsCapitalize (s : String) : String :=
  match s.toList with
  | [] => ""
  | c :: cs => String.mk (c.toUpper :: cs)

/- ----------------------------------------------------------------- -/
/- Item data model (the slice _validateItemType reads)               -/
/- ----------------------------------------------------------------- -/

/-- The `item.system.type` object: feature category and subtype. -/
structure ItemSystemType where
  value : String
  subtype : String
deriving DecidableEq

/-- The slice of `item.system` read by validation: feature type and power level. -/
structure ItemSystem where
  type : ItemSystemType
  level : Int
deriving DecidableEq

/-- The slice of an Item5e document read by validation. -/
structure ItemData where
  type : String
  system : ItemSystem
deriving DecidableEq

/-- One entry of `CONFIG.SW5E.featureTypes`: a label and an optional subtype
table mapping subtype keys to labels. -/
structure FeatureType where
  label : String
  subtypes : Option (List (String × String))
deriving DecidableEq

/-- The `configuration.restriction` object of an ItemChoice advancement.
Field `type` is the required feature type key, `subtype` the required feature
subtype key, `level` the configured power level as the form submitted it. -/
structure Restriction where
  type : String
  subtype : String
  level : String
deriving DecidableEq

/-- Errors thrown by validation: a localized validation message (by key), or
a raw JS `TypeError` from dereferencing `undefined`. -/
inductive JSError where
  | validationError (key : String)
  | typeError
deriving DecidableEq

/- ----------------------------------------------------------------- -/
/- ItemChoiceAdvancement._validateItemType                           -/
/- ----------------------------------------------------------------- -/

/-- Modelled from the spec: `ItemGrantAdvancement._validateItemType`, the
`super` call of the subclass override (item-grant.mjs is not among the
source files). The spec's validation contract lists exactly the base-type,
feature-subtype and power-level rules, all of which the subclass override
implements itself, so the parent check passes. Its boolean result is
discarded by the caller exactly as the JS discards it. -/
def superValidateItemType (_item : ItemData) (_strict : Bool) : Except JSError Bool :=
  Except.ok true

/-- Power-level block of `_validateItemType` (advancement.less rendition of
item-choice.mjs, lines 605-613): `const l = parseInt(restriction.level)`,
then fail when the type is "power", `l` is not NaN and the item's level
differs. -/
def powerLevelBlock (item : ItemData) (type : String) (restriction : Restriction)
    (strict : Bool) : Except JSError Bool :=
  match parseIntJS restriction.level with
  | some l =>
    if type = "power" ∧ item.system.level ≠ l then
      if strict then
        Except.error (JSError.validationError "SW5E.AdvancementItemChoicePowerLevelSpecificWarning")
      else Except.ok false
    else Except.ok true
  | none => Except.ok true

/-- The `subtype` and `errorLabel` locals of the feature block (lines
595-598): the subtype label looked up through the optional chain
`typeConfig.subtypes?.[restriction.subtype]`, then the label of whichever
of feature type and feature subtype mismatches, none when both match. -/
def featErrorLabel (typeConfig : FeatureType) (item : ItemData) (restriction : Restriction) :
    Option String :=
  let subtype := typeConfig.subtypes.bind fun m => List.lookup restriction.subtype m
  if restriction.type ≠ item.system.type.value then some typeConfig.label
  else if jsTruthyStr subtype ∧ restriction.subtype ≠ item.system.type.subtype then subtype
  else none

/-- Feature block of `_validateItemType` (lines 592-603): when the
configured type is "feat" and a feature-type restriction is set, look the
restriction up in `CONFIG.SW5E.featureTypes` — an unknown key makes
`typeConfig.subtypes` a read on `undefined`, a TypeError — then fail on a
truthy `errorLabel`. Falls through to the power-level block. -/
def featRestrictionBlock (featureTypes : List (String × FeatureType)) (item : ItemData)
    (type : String) (restriction : Restriction) (strict : Bool) : Except JSError Bool :=
  if type = "feat" ∧ restriction.type ≠ "" then
    match List.lookup restriction.type featureTypes with
    | none => Except.error JSError.typeError
    | some typeConfig =>
      if jsTruthyStr (featErrorLabel typeConfig item restriction) then
        if strict then Except.error (JSError.validationError "SW5E.AdvancementItemChoiceTypeWarning")
        else Except.ok false
      else powerLevelBlock item type restriction strict
  else powerLevelBlock item type restriction strict

/-- ItemChoiceAdvancement._validateItemType (lines 580-614), sequentialized:
the super call, the type-match check (lines 586-590), the feature block and
the power-level block. `Except.error` models a throw, `Except.ok` a return. -/
def _validateItemType (featureTypes : List (String × FeatureType)) (item : ItemData)
    (type : String) (restriction : Restriction) (strict : Bool) : Except JSError Bool :=
  match superValidateItemType item strict with
  | Except.error e => Except.error e
  | Except.ok _ =>
    if type ≠ "" ∧ type ≠ item.type then
      if strict then Except.error (JSError.validationError "SW5E.AdvancementItemChoiceTypeWarning")
      else Except.ok false
    else featRestrictionBlock featureTypes item type restriction strict

/- ----------------------------------------------------------------- -/
/- ItemChoiceAdvancement: value, configuredForLevel, levels          -/
/- ----------------------------------------------------------------- -/

/-- The `value` of an ItemChoice advancement: `value.added` maps a level to
the mapping of choice keys to granted item UUIDs, and is absent before any
level was applied. -/
structure ItemChoiceValue where
  added : Option (List (Nat × List (String × String)))

/-- ItemChoiceAdvancement.configuredForLevel (lines 539-541):
`this.value.added?.[level] !== undefined`. -/
def configuredForLevel (value : ItemChoiceValue) (level : Nat) : Bool :=
  (value.added.bind fun m => List.lookup level m).isSome

/-- Sorted insertion of an integer key that drops a key already present:
together with `jsObjectIntegerKeys` this models ECMA-262 own-property-key
order, in which an object's integer-like keys are unique and enumerated in
ascending numeric order. -/
def insortLevel (x : Nat) : List Nat → List Nat
  | [] => [x]
  | y :: ys => if x < y then x :: y :: ys else if x = y then y :: ys else y :: insortLevel x ys

/-- Modelled JS semantics of `Object.keys` on an object whose own keys are
integer-like (the per-level `configuration.choices` table): the distinct
keys in ascending numeric order, whatever order the entries were written. -/
def jsObjectIntegerKeys (m : List (Nat × Nat)) : List Nat :=
  m.foldr (fun p acc => insortLevel p.1 acc) []

/-- The configuration of an ItemChoice advancement: `choices` maps a level to
the number of allowed choices at that level. -/
structure ItemChoiceConfiguration where
  choices : List (Nat × Nat)

/-- ItemChoiceAdvancement.levels (lines 530-532):
`Array.from(Object.keys(this.configuration.choices))`. -/
def levels (configuration : ItemChoiceConfiguration) : List Nat :=
  jsObjectIntegerKeys configuration.choices

/- ----------------------------------------------------------------- -/
/- ItemGrantConfig._validateDroppedItem                              -/
/- ----------------------------------------------------------------- -/

/-- The error thrown for an invalid drop: the localization key of the
warning and the localization key of the offending item type's label
(`ITEM.Type` followed by the capitalized item type). -/
structure DropTypeError where
  messageKey : String
  typeLabelKey : String
deriving DecidableEq

/-- ItemGrantConfig._validateDroppedItem (item-grant-config.mjs lines 28-32):
return true when the item type is among the advancement's VALID_TYPES,
otherwise throw an error built from the offending type's label. -/
def _validateDroppedItem (validTypes : List String) (itemType : String) :
    Except DropTypeError Bool :=
  if itemType ∈ validTypes then Except.ok true
  else
    Except.error
      { messageKey := "SW5E.AdvancementItemTypeInvalidWarning",
        typeLabelKey := "ITEM.Type" ++ jsCapitalize itemType }

/- ----------------------------------------------------------------- -/
/- AdvancementFlow                                                   -/
/- ----------------------------------------------------------------- -/

/-- The slice of an AdvancementFlow read by form submission: the level the
flow configures and the data retained by the manager during a reverse step
(null until such a step happened). Form data is a key-value listing. -/
structure AdvancementFlowState where
  level : Nat
  retainedData : Option (List (String × String))

/-- A call a Flow can make into its Advancement's application contract. -/
inductive AdvancementCall where
  | applyAdv (level : Nat) (formData : List (String × String))
  | restoreAdv (level : Nat) (retainedData : List (String × String))
deriving DecidableEq

/-- AdvancementFlow._updateObject (advancement-flow.mjs lines 92-94):
`await this.advancement.apply(this.level, formData)`. The flow produces a
call descriptor and touches no actor state itself. -/
def _updateObject (flow : AdvancementFlowState) (formData : List (String × String)) :
    AdvancementCall :=
  AdvancementCall.applyAdv flow.level formData

/- ----------------------------------------------------------------- -/
/- Character sheet: _onLevelChange                                   -/
/- ----------------------------------------------------------------- -/

/-- Modelled from the spec: the outcome of
`AdvancementConfirmationDialog.forLevelDown` (the dialog class is not among
the source files). Per the spec's error taxonomy, declining the destructive
reversal (ConfirmationDeclined) is a control-flow signal the caller treats
as a fail-soft cancellation — the promise rejection the caller catches.
The dialog can also resolve: `true` to remove advancements, `false` to
proceed with the level change while keeping them. -/
inductive DialogOutcome where
  | resolvedTrue
  | resolvedFalse
  | declined
deriving DecidableEq

/-- What one run of the level-change handler does. -/
inductive LevelChangeAction where
  | noAction
  | renderManager
  | updateClassLevels (newLevels : Int)
deriving DecidableEq

/-- ActorSheet5eCharacter._onLevelChange (character-sheet.mjs lines 245-265).
`delta` is the selector's level delta, `hasClassId` whether the event row
carries a class item id, `managerSteps` the step count of the manager
`AdvancementManager.forLevelChange` builds, `dialog` the confirmation
outcome consulted only on a level decrease, `currentLevels` the class
item's current level count. -/
def _onLevelChange (delta : Int) (hasClassId : Bool) (disableAdvancements : Bool)
    (managerSteps : Nat) (dialog : DialogOutcome) (currentLevels : Int) :
    LevelChangeAction :=
  if delta = 0 ∨ hasClassId = false then LevelChangeAction.noAction
  else if disableAdvancements = false ∧ managerSteps ≠ 0 then
    if 0 < delta then LevelChangeAction.renderManager
    else
      match dialog with
      | DialogOutcome.resolvedTrue => LevelChangeAction.renderManager
      | DialogOutcome.resolvedFalse => LevelChangeAction.updateClassLevels (currentLevels + delta)
      | DialogOutcome.declined => LevelChangeAction.noAction
  else LevelChangeAction.updateClassLevels (currentLevels + delta)

/- ----------------------------------------------------------------- -/
/- Character sheet: _onDropSingleItem, class branch                  -/
/- ----------------------------------------------------------------- -/

/-- What dropping a class item onto the sheet does. Every constructor but
`rejected` carries the levels the drop grants. -/
inductive DropClassAction where
  | rejected
  | renderManager (grantedLevels : Int)
  | updateExistingClass (newLevels : Int) (grantedLevels : Int)
  | createClassItem (grantedLevels : Int)
deriving DecidableEq

/-- Levels granted by a drop outcome, `none` for a rejected drop. -/
def grantedOf : DropClassAction → Option Int
  | DropClassAction.rejected => none
  | DropClassAction.renderManager g => some g
  | DropClassAction.updateExistingClass _ g => some g
  | DropClassAction.createClassItem g => some g

/-- ActorSheet5eCharacter._onDropSingleItem, class branch (character-sheet.mjs
lines 314-339): clamp the dropped item's levels to
`CONFIG.SW5E.maxLevel - actor.system.details.level`, reject when the clamp
leaves nothing, otherwise update the matching existing class (possibly via
an advancement manager) or fall through to embedded item creation. -/
def _onDropClassItem (maxLevel charLevel itemLevels : Int)
    (existingClassLevels : Option Int) (disableAdvancements : Bool)
    (managerSteps : Nat) : DropClassAction :=
  let clamped := min itemLevels (maxLevel - charLevel)
  if clamped ≤ 0 then DropClassAction.rejected
  else
    match existingClassLevels with
    | some priorLevel =>
      if disableAdvancements = false ∧ managerSteps ≠ 0 then
        DropClassAction.renderManager clamped
      else DropClassAction.updateExistingClass (priorLevel + clamped) clamped
    | none => DropClassAction.createClassItem clamped

/- ----------------------------------------------------------------- -/
/- Advancement Manager: clone staging                                -/
/- ----------------------------------------------------------------- -/

/-- Modelled from the spec: the Advancement Manager's actor/clone pair
(advancement-manager.mjs is not among the source files). The real actor's
persisted data is `actor`; `clone` is the detached speculative copy every
step mutates. -/
structure AdvancementManagerState (α : Type) where
  actor : α
  clone : α

/-- Modelled from the spec: manager construction clones the actor, leaving
the real actor as the pre-manager snapshot. -/
def createManager {α : Type} (actor : α) : AdvancementManagerState α :=
  { actor := actor, clone := actor }

/-- Modelled from the spec: a step's apply/reverse mutates only the clone. -/
def applyStepToClone {α : Type} (m : AdvancementManagerState α) (step : α → α) :
    AdvancementManagerState α :=
  { m with clone := step m.clone }

/-- Run a sequence of speculative steps on the manager's clone. -/
def runSteps {α : Type} (m : AdvancementManagerState α) (steps : List (α → α)) :
    AdvancementManagerState α :=
  steps.foldl applyStepToClone m

/-- Modelled from the spec: cancelling discards the manager and its clone;
the real actor keeps its data. -/
def cancelManager {α : Type} (m : AdvancementManagerState α) : α :=
  m.actor

/-- Modelled from the spec: commit applies the clone's accumulated changes
to the real actor in one batch. -/
def commitManager {α : Type} (m : AdvancementManagerState α) : α :=
  m.clone

/- ----------------------------------------------------------------- -/
/- simplifyBonus                                                     -/
/- ----------------------------------------------------------------- -/

/-- A JS value a bonus field can hold: null/undefined, a number, a string.
Numbers are modelled as integers. -/
inductive JSVal where
  | null
  | num (n : Int)
  | str (s : String)
deriving DecidableEq

/-- JS falsiness over `JSVal` (no NaN in the model). -/
def jsFalsy : JSVal → Bool
  | JSVal.null => true
  | JSVal.num n => n == 0
  | JSVal.str s => s == ""

/-- Foundry's `Number.isNumeric` over `JSVal`: numbers are numeric, a string
is numeric when `Number(s)` is not NaN, null is not. -/
def isNumericJS : JSVal → Bool
  | JSVal.null => false
  | JSVal.num _ => true
  | JSVal.str s => (strNumber? s).isSome

/-- JS `Number(v)` for the values `simplifyBonus` converts. -/
def toNumberJS : JSVal → Int
  | JSVal.null => 0
  | JSVal.num n => n
  | JSVal.str s => (strNumber? s).getD 0

/-- Outcome of the host's Roll pipeline on a formula: the constructor or
`Roll.safeEval` throws, or the formula is deterministic with a value, or it
is non-deterministic. -/
inductive RollOutcome where
  | throwsError
  | det (value : Int)
  | nondet
deriving DecidableEq

/-- simplifyBonus (utils.mjs lines 12-22). The whole Roll pipeline sits in a
try/catch whose catch returns 0, so the embedding is total: `roll` is the
host's formula evaluation, and its `throwsError` outcome is the caught
branch. -/
def simplifyBonus (bonus : JSVal) (roll : String → RollOutcome) : Int :=
  if jsFalsy bonus then 0
  else if isNumericJS bonus then toNumberJS bonus
  else
    match bonus with
    | JSVal.str s =>
      match roll s with
      | RollOutcome.throwsError => 0
      | RollOutcome.det v => v
      | RollOutcome.nondet => 0
    | _ => 0

/- ----------------------------------------------------------------- -/
/- Theorems                                                          -/
/- ----------------------------------------------------------------- -/

theorem runSteps_actor {α : Type} (m : AdvancementManagerState α) (steps : List (α → α)) :
    (runSteps m steps).actor = m.actor := by
  induction steps generalizing m with
  | nil => rfl
  | cons s rest ih => simpa [runSteps, applyStepToClone] using ih (applyStepToClone m s)

/-- C2: discarding (cancelling) a manager at any point before commit, after
any sequence of speculative step mutations of the clone, leaves the real
actor's persisted data equal to its pre-manager snapshot; the clone is
simply dropped. -/
theorem cancelManager_preserves_actor {α : Type} (actor : α) (steps : List (α → α)) :
    cancelManager (runSteps (createManager actor) steps) = actor := by
  simp [cancelManager, runSteps_actor, createManager]

theorem cancelManager_preserves_actor_witness :
    cancelManager (runSteps (createManager (7 : Int)) [fun x => x + 5, fun _ => 0]) = 7 :=
  cancelManager_preserves_actor 7 [fun x => x + 5, fun _ => 0]

/-- Concrete flow state re-entering a previously reversed step: the manager
has filled `retainedData`. -/
def retainedFlow : AdvancementFlowState :=
  { level := 3, retainedData := some [("choice0", "Item.abc")] }

/-- C5 counterexample: a flow holding non-null `retainedData` still sends
`apply` — not `restore` — on form submission; `_updateObject` ignores
`retainedData` entirely. -/
theorem updateObject_retained_still_applies :
    retainedFlow.retainedData = some [("choice0", "Item.abc")] ∧
    _updateObject retainedFlow [("choice0", "Item.xyz")] =
      AdvancementCall.applyAdv 3 [("choice0", "Item.xyz")] :=
  ⟨rfl, rfl⟩

/-- C5 (amended): every form submission of the base Advancement Flow
forwards the raw form payload unchanged to `advancement.apply(level,
formData)`, whatever `retainedData` holds; the flow only emits this call
descriptor and never mutates actor state itself. -/
theorem updateObject_always_applies (flow : AdvancementFlowState)
    (formData : List (String × String)) :
    _updateObject flow formData = AdvancementCall.applyAdv flow.level formData :=
  rfl

theorem updateObject_always_applies_witness :
    _updateObject retainedFlow [] = AdvancementCall.applyAdv 3 [] :=
  updateObject_always_applies retainedFlow []

/-- C6: `configuredForLevel` is true exactly when `value.added` holds an
applied entry at that level. -/
theorem configuredForLevel_iff (value : ItemChoiceValue) (level : Nat) :
    configuredForLevel value level = true ↔
      ∃ m items, value.added = some m ∧ List.lookup level m = some items := by
  cases h : value.added with
  | none => simp [configuredForLevel, h]
  | some m => simp [configuredForLevel, h, Option.isSome_iff_exists]

theorem configuredForLevel_iff_witness :
    configuredForLevel { added := some [(2, [("choiceA", "Item.u1")])] } 2 = true ↔
      ∃ m items,
        (some [(2, [("choiceA", "Item.u1")])] :
            Option (List (Nat × List (String × String)))) = some m ∧
        List.lookup 2 m = some items :=
  configuredForLevel_iff { added := some [(2, [("choiceA", "Item.u1")])] } 2

/-- C8: a dropped item whose type is among the advancement's VALID_TYPES
validates to true; any other throws an error naming the offending item
type's label — never a silent pass. -/
theorem validateDroppedItem_spec (validTypes : List String) (itemType : String) :
    (itemType ∈ validTypes → _validateDroppedItem validTypes itemType = Except.ok true) ∧
    (itemType ∉ validTypes →
      _validateDroppedItem validTypes itemType =
        Except.error
          { messageKey := "SW5E.AdvancementItemTypeInvalidWarning",
            typeLabelKey := "ITEM.Type" ++ jsCapitalize itemType }) := by
  constructor <;> intro h <;> simp [_validateDroppedItem, h]

theorem validateDroppedItem_spec_witness :
    _validateDroppedItem ["feat", "power"] "weapon" =
      Except.error
        { messageKey := "SW5E.AdvancementItemTypeInvalidWarning",
          typeLabelKey := "ITEM.Type" ++ jsCapitalize "weapon" } :=
  (validateDroppedItem_spec ["feat", "power"] "weapon").2 (by decide)

/-- C10: simplifyBonus is total (the embedding returns an Int for every
input; the JS try/catch around the Roll pipeline is the `throwsError`
branch, mapped to 0) and case-correct: 0 for a falsy bonus, the numeric
conversion for a numeric one, the evaluated value for a deterministic
formula, 0 for a non-deterministic formula or an evaluation that throws. -/
theorem simplifyBonus_spec (bonus : JSVal) (roll : String → RollOutcome) :
    (jsFalsy bonus = true → simplifyBonus bonus roll = 0) ∧
    (jsFalsy bonus = false → isNumericJS bonus = true →
      simplifyBonus bonus roll = toNumberJS bonus) ∧
    (∀ s, bonus = JSVal.str s → jsFalsy bonus = false → isNumericJS bonus = false →
      ((∀ v, roll s = RollOutcome.det v → simplifyBonus bonus roll = v) ∧
       (roll s = RollOutcome.nondet → simplifyBonus bonus roll = 0) ∧
       (roll s = RollOutcome.throwsError → simplifyBonus bonus roll = 0))) := by
  refine ⟨fun h => by simp [simplifyBonus, h],
    fun h1 h2 => by simp [simplifyBonus, h1, h2], ?_⟩
  rintro s rfl h1 h2
  refine ⟨fun v hv => ?_, fun hv => ?_, fun hv => ?_⟩ <;>
    simp [simplifyBonus, h1, h2, hv]

theorem simplifyBonus_spec_witness :
    simplifyBonus (JSVal.str "1d4") (fun _ => RollOutcome.nondet) = 0 :=
  ((simplifyBonus_spec (JSVal.str "1d4") (fun _ => RollOutcome.nondet)).2.2 "1d4" rfl
    (by decide) (by decide)).2.1 rfl

/-- C9: dropping a class item clamps the granted levels to maxLevel minus
the character's current total level — so no drop outcome pushes the total
past maxLevel — and a clamp to zero or less rejects the drop, creating no
item and updating no class. -/
theorem onDropClassItem_clamped (maxLevel charLevel itemLevels : Int)
    (existingClassLevels : Option Int) (disableAdvancements : Bool) (managerSteps : Nat) :
    (min itemLevels (maxLevel - charLevel) ≤ 0 →
      _onDropClassItem maxLevel charLevel itemLevels existingClassLevels
        disableAdvancements managerSteps = DropClassAction.rejected) ∧
    (∀ g,
      grantedOf (_onDropClassItem maxLevel charLevel itemLevels existingClassLevels
        disableAdvancements managerSteps) = some g →
      g = min itemLevels (maxLevel - charLevel) ∧ 0 < g ∧ charLevel + g ≤ maxLevel) := by
  constructor
  · intro h
    simp [_onDropClassItem, h]
  · intro g hg
    by_cases h : min itemLevels (maxLevel - charLevel) ≤ 0
    · simp [_onDropClassItem, h, grantedOf] at hg
    · have hle : min itemLevels (maxLevel - charLevel) ≤ maxLevel - charLevel :=
        min_le_right _ _
      cases existingClassLevels with
      | none =>
        simp [_onDropClassItem, h, grantedOf] at hg
        omega
      | some p =>
        by_cases hadv : disableAdvancements = false ∧ managerSteps ≠ 0
        · simp [_onDropClassItem, h, hadv, grantedOf] at hg
          omega
        · simp [_onDropClassItem, h, hadv, grantedOf] at hg
          omega

theorem onDropClassItem_clamped_witness :
    (min (5 : Int) (20 - 18) ≤ 0 →
      _onDropClassItem 20 18 5 (some 3) false 4 = DropClassAction.rejected) ∧
    (∀ g, grantedOf (_onDropClassItem 20 18 5 (some 3) false 4) = some g →
      g = min (5 : Int) (20 - 18) ∧ 0 < g ∧ 18 + g ≤ 20) :=
  onDropClassItem_clamped 20 18 5 (some 3) false 4

/-- C1: on a level decrease whose manager has at least one step (with
advancements enabled), the confirmation outcome decides everything before
any reverse step runs: the manager renders — beginning its reverse steps —
only on an affirmative confirmation, and a declined confirmation is a
no-op, with no class-level update applied and no reverse steps executed. -/
theorem onLevelChange_decline_is_noop (delta : Int) (managerSteps : Nat)
    (currentLevels : Int) (hdelta : delta < 0) (hsteps : managerSteps ≠ 0) :
    _onLevelChange delta true false managerSteps DialogOutcome.declined currentLevels =
      LevelChangeAction.noAction ∧
    (∀ dialog, _onLevelChange delta true false managerSteps dialog currentLevels =
        LevelChangeAction.renderManager → dialog = DialogOutcome.resolvedTrue) := by
  have hne : ¬delta = 0 := by omega
  have hpos : ¬ 0 < delta := by omega
  constructor
  · simp [_onLevelChange, hne, hsteps, hpos]
  · intro dialog h
    cases dialog
    · rfl
    · simp [_onLevelChange, hne, hsteps, hpos] at h
    · simp [_onLevelChange, hne, hsteps, hpos] at h

theorem onLevelChange_decline_is_noop_witness :
    _onLevelChange (-2) true false 3 DialogOutcome.declined 6 = LevelChangeAction.noAction ∧
    (∀ dialog, _onLevelChange (-2) true false 3 dialog 6 = LevelChangeAction.renderManager →
      dialog = DialogOutcome.resolvedTrue) :=
  onLevelChange_decline_is_noop (-2) 3 6 (by decide) (by decide)

theorem mem_insortLevel (a x : Nat) (l : List Nat) :
    a ∈ insortLevel x l ↔ a = x ∨ a ∈ l := by
  induction l with
  | nil => simp [insortLevel]
  | cons y ys ih =>
    by_cases h1 : x < y
    · simp [insortLevel, h1]
    · by_cases h2 : x = y
      · subst h2
        simp [insortLevel, h1]
      · simp [insortLevel, h1, h2, ih]
        tauto

theorem pairwise_insortLevel (x : Nat) (l : List Nat) (h : l.Pairwise (· < ·)) :
    (insortLevel x l).Pairwise (· < ·) := by
  induction l with
  | nil => simp [insortLevel]
  | cons y ys ih =>
    rcases List.pairwise_cons.mp h with ⟨hy, hys⟩
    by_cases h1 : x < y
    · simp only [insortLevel, if_pos h1]
      refine List.pairwise_cons.mpr ⟨?_, h⟩
      intro z hz
      rcases List.mem_cons.mp hz with rfl | hz
      · exact h1
      · exact h1.trans (hy z hz)
    · by_cases h2 : x = y
      · simpa [insortLevel, h1, h2] using h
      · simp only [insortLevel, if_neg h1, if_neg h2]
        refine List.pairwise_cons.mpr ⟨?_, ih hys⟩
        intro z hz
        rcases (mem_insortLevel z x ys).mp hz with rfl | hz
        · omega
        · exact hy z hz

/-- C7: the derived `levels` of an ItemChoice advancement is strictly
ascending — hence duplicate-free — and holds exactly the levels keyed in
`configuration.choices`. -/
theorem levels_ascending_exact (configuration : ItemChoiceConfiguration) :
    (levels configuration).Pairwise (· < ·) ∧
    (∀ l, l ∈ levels configuration ↔ ∃ n, (l, n) ∈ configuration.choices) := by
  obtain ⟨choices⟩ := configuration
  constructor
  · show (jsObjectIntegerKeys choices).Pairwise (· < ·)
    induction choices with
    | nil => simp [jsObjectIntegerKeys]
    | cons p ps ih => exact pairwise_insortLevel p.1 (jsObjectIntegerKeys ps) ih
  · intro l
    show l ∈ jsObjectIntegerKeys choices ↔ _
    induction choices with
    | nil => simp [jsObjectIntegerKeys]
    | cons p ps ih =>
      obtain ⟨k, v⟩ := p
      have hstep : jsObjectIntegerKeys ((k, v) :: ps) =
          insortLevel k (jsObjectIntegerKeys ps) := rfl
      rw [hstep, mem_insortLevel, ih]
      constructor
      · rintro (rfl | ⟨n, hn⟩)
        · exact ⟨v, List.mem_cons_self _ _⟩
        · exact ⟨n, List.mem_cons_of_mem _ hn⟩
      · rintro ⟨n, hn⟩
        rcases List.mem_cons.mp hn with heq | hmem
        · left
          exact congrArg Prod.fst heq
        · right
          exact ⟨n, hmem⟩

theorem levels_ascending_exact_witness :
    (levels { choices := [(3, 1), (1, 2)] }).Pairwise (· < ·) ∧
    (∀ l, l ∈ levels { choices := [(3, 1), (1, 2)] } ↔
      ∃ n, (l, n) ∈ [(3, 1), (1, 2)]) :=
  levels_ascending_exact { choices := [(3, 1), (1, 2)] }

theorem validateItemType_eq (featureTypes : List (String × FeatureType)) (item : ItemData)
    (type : String) (restriction : Restriction) (strict : Bool) :
    _validateItemType featureTypes item type restriction strict =
      if type ≠ "" ∧ type ≠ item.type then
        (if strict then Except.error (JSError.validationError "SW5E.AdvancementItemChoiceTypeWarning")
         else Except.ok false)
      else featRestrictionBlock featureTypes item type restriction strict := rfl

theorem powerLevelBlock_nonstrict_total (item : ItemData) (type : String) (r : Restriction) :
    ∃ b, powerLevelBlock item type r false = Except.ok b := by
  unfold powerLevelBlock
  cases hp : parseIntJS r.level with
  | none => exact ⟨true, rfl⟩
  | some l =>
    by_cases h : type = "power" ∧ item.system.level ≠ l
    · exact ⟨false, by simp [h]⟩
    · exact ⟨true, by simp [h]⟩

theorem powerLevelBlock_strict_shape (item : ItemData) (type : String) (r : Restriction) :
    powerLevelBlock item type r true = Except.ok true ∨
    powerLevelBlock item type r true =
      Except.error
        (JSError.validationError "SW5E.AdvancementItemChoicePowerLevelSpecificWarning") := by
  unfold powerLevelBlock
  cases hp : parseIntJS r.level with
  | none => exact Or.inl rfl
  | some l =>
    by_cases h : type = "power" ∧ item.system.level ≠ l
    · right
      simp [h]
    · left
      simp [h]

theorem powerLevelBlock_strict_iff (item : ItemData) (type : String) (r : Restriction) :
    powerLevelBlock item type r true = Except.ok true ↔
      powerLevelBlock item type r false = Except.ok true := by
  unfold powerLevelBlock
  cases hp : parseIntJS r.level with
  | none => simp
  | some l =>
    by_cases h : type = "power" ∧ item.system.level ≠ l
    · simp [h]
    · simp [h]

theorem featRestrictionBlock_nonstrict_total (featureTypes : List (String × FeatureType))
    (item : ItemData) (type : String) (r : Restriction)
    (wf : type = "feat" → r.type ≠ "" → (List.lookup r.type featureTypes).isSome = true) :
    ∃ b, featRestrictionBlock featureTypes item type r false = Except.ok b := by
  unfold featRestrictionBlock
  by_cases h : type = "feat" ∧ r.type ≠ ""
  · obtain ⟨tc, htc⟩ := Option.isSome_iff_exists.mp (wf h.1 h.2)
    rw [if_pos h, htc]
    by_cases he : jsTruthyStr (featErrorLabel tc item r)
    · exact ⟨false, by simp [he]⟩
    · simpa [he] using powerLevelBlock_nonstrict_total item type r
  · rw [if_neg h]
    exact powerLevelBlock_nonstrict_total item type r

theorem featRestrictionBlock_strict_shape (featureTypes : List (String × FeatureType))
    (item : ItemData) (type : String) (r : Restriction)
    (wf : type = "feat" → r.type ≠ "" → (List.lookup r.type featureTypes).isSome = true) :
    featRestrictionBlock featureTypes item type r true = Except.ok true ∨
    ∃ key, featRestrictionBlock featureTypes item type r true =
      Except.error (JSError.validationError key) := by
  unfold featRestrictionBlock
  by_cases h : type = "feat" ∧ r.type ≠ ""
  · obtain ⟨tc, htc⟩ := Option.isSome_iff_exists.mp (wf h.1 h.2)
    rw [if_pos h, htc]
    by_cases he : jsTruthyStr (featErrorLabel tc item r)
    · right
      exact ⟨"SW5E.AdvancementItemChoiceTypeWarning", by simp [he]⟩
    · rcases powerLevelBlock_strict_shape item type r with hpb | hpb
      · left
        simp [he, hpb]
      · right
        exact ⟨"SW5E.AdvancementItemChoicePowerLevelSpecificWarning", by simp [he, hpb]⟩
  · rw [if_neg h]
    rcases powerLevelBlock_strict_shape item type r with hpb | hpb
    · exact Or.inl hpb
    · exact Or.inr ⟨_, hpb⟩

theorem featRestrictionBlock_strict_iff (featureTypes : List (String × FeatureType))
    (item : ItemData) (type : String) (r : Restriction)
    (wf : type = "feat" → r.type ≠ "" → (List.lookup r.type featureTypes).isSome = true) :
    featRestrictionBlock featureTypes item type r true = Except.ok true ↔
      featRestrictionBlock featureTypes item type r false = Except.ok true := by
  unfold featRestrictionBlock
  by_cases h : type = "feat" ∧ r.type ≠ ""
  · obtain ⟨tc, htc⟩ := Option.isSome_iff_exists.mp (wf h.1 h.2)
    simp only [if_pos h, htc]
    by_cases he : jsTruthyStr (featErrorLabel tc item r)
    · simp [he]
    · simpa [he] using powerLevelBlock_strict_iff item type r
  · simp only [if_neg h]
    exact powerLevelBlock_strict_iff item type r

/-- C3 (amended): provided every feature-type restriction key that the feat
branch dereferences is present in CONFIG.SW5E.featureTypes, the validator
is a boolean pass/fail check: with strict = false it always returns a
boolean and never throws; with strict = true it never returns false —
it either passes with true or throws a validation error — and it passes
exactly where the non-strict run returns true. -/
theorem validateItemType_strictness (featureTypes : List (String × FeatureType))
    (item : ItemData) (type : String) (restriction : Restriction)
    (wf : type = "feat" → restriction.type ≠ "" →
      (List.lookup restriction.type featureTypes).isSome = true) :
    (∃ b, _validateItemType featureTypes item type restriction false = Except.ok b) ∧
    (_validateItemType featureTypes item type restriction true = Except.ok true ∨
      ∃ key, _validateItemType featureTypes item type restriction true =
        Except.error (JSError.validationError key)) ∧
    (_validateItemType featureTypes item type restriction true = Except.ok true ↔
      _validateItemType featureTypes item type restriction false = Except.ok true) := by
  simp only [validateItemType_eq]
  by_cases hc : type ≠ "" ∧ type ≠ item.type
  · simp only [if_pos hc]
    exact ⟨⟨false, by simp⟩, Or.inr ⟨"SW5E.AdvancementItemChoiceTypeWarning", by simp⟩, by simp⟩
  · simp only [if_neg hc]
    exact ⟨featRestrictionBlock_nonstrict_total featureTypes item type restriction wf,
      featRestrictionBlock_strict_shape featureTypes item type restriction wf,
      featRestrictionBlock_strict_iff featureTypes item type restriction wf⟩

/-- Concrete featureTypes table holding one known feature type. -/
def sampleFeatureTypes : List (String × FeatureType) :=
  [("classFeature", { label := "Class Feature", subtypes := none })]

/-- Concrete feat item of the known feature type. -/
def sampleFeatItem : ItemData :=
  { type := "feat",
    system := { type := { value := "classFeature", subtype := "" }, level := 0 } }

/-- Restriction whose feature-type key is not in the table. -/
def unknownTypeRestriction : Restriction :=
  { type := "customFeature", subtype := "", level := "" }

/-- C3 counterexample: with strict = false — where the claim promises a
plain boolean result and no throw — a feature-type restriction whose key is
absent from CONFIG.SW5E.featureTypes makes `_validateItemType` throw a
TypeError: `CONFIG.SW5E.featureTypes[restriction.type]` is undefined and
line 595 reads `.subtypes` on it. The claim "it never throws when strict is
false" fails at this input. -/
theorem validateItemType_nonstrict_throws :
    _validateItemType sampleFeatureTypes sampleFeatItem "feat" unknownTypeRestriction false =
      Except.error JSError.typeError := rfl

/-- Restriction matching the known feature type. -/
def knownTypeRestriction : Restriction :=
  { type := "classFeature", subtype := "", level := "" }

theorem validateItemType_strictness_witness :
    (∃ b, _validateItemType sampleFeatureTypes sampleFeatItem "feat" knownTypeRestriction false =
      Except.ok b) ∧
    (_validateItemType sampleFeatureTypes sampleFeatItem "feat" knownTypeRestriction true =
        Except.ok true ∨
      ∃ key, _validateItemType sampleFeatureTypes sampleFeatItem "feat" knownTypeRestriction true =
        Except.error (JSError.validationError key)) ∧
    (_validateItemType sampleFeatureTypes sampleFeatItem "feat" knownTypeRestriction true =
        Except.ok true ↔
      _validateItemType sampleFeatureTypes sampleFeatItem "feat" knownTypeRestriction false =
        Except.ok true) :=
  validateItemType_strictness sampleFeatureTypes sampleFeatItem "feat" knownTypeRestriction
    (fun _ _ => rfl)

/-- C4: for an item validated with configured type "power" and matching item
type, the power-level rule holds: when `restriction.level` parses to an
integer l, validation passes exactly when the item's level equals l; when
parseInt yields NaN, no power-level restriction applies and validation
passes whatever the item's level. -/
theorem validateItemType_powerLevel (featureTypes : List (String × FeatureType))
    (sysType : ItemSystemType) (itemLevel : Int) (restriction : Restriction) (strict : Bool) :
    (∀ l, parseIntJS restriction.level = some l →
      (_validateItemType featureTypes
          { type := "power", system := { type := sysType, level := itemLevel } }
          "power" restriction strict = Except.ok true ↔ itemLevel = l)) ∧
    (parseIntJS restriction.level = none →
      _validateItemType featureTypes
          { type := "power", system := { type := sysType, level := itemLevel } }
          "power" restriction strict = Except.ok true) := by
  have hpath : _validateItemType featureTypes
      { type := "power", system := { type := sysType, level := itemLevel } }
      "power" restriction strict =
      powerLevelBlock { type := "power", system := { type := sysType, level := itemLevel } }
        "power" restriction strict := by
    rw [validateItemType_eq, if_neg (by simp)]
    unfold featRestrictionBlock
    rw [if_neg (by simp)]
  constructor
  · intro l hl
    rw [hpath]
    unfold powerLevelBlock
    rw [hl]
    by_cases h : itemLevel = l
    · simp [h]
    · cases strict <;> simp [h]
  · intro hl
    rw [hpath]
    unfold powerLevelBlock
    rw [hl]

theorem validateItemType_powerLevel_witness :
    _validateItemType []
      { type := "power", system := { type := { value := "", subtype := "" }, level := 3 } }
      "power" { type := "", subtype := "", level := "3" } true = Except.ok true :=
  ((validateItemType_powerLevel [] { value := "", subtype := "" } 3
      { type := "", subtype := "", level := "3" } true).1 3 rfl).mpr rfl
